import Mathlib

/-!
Verification of the request-parsing, resource-resolution and response-construction
pipeline of a minimal single-connection HTTP file server (src/server.c).

The embedding is shallow: each C function of the pipeline becomes a pure Lean
function over explicit data.

* Request buffers and file contents are lists of bytes (List Nat); C strings are
  lists of characters (List Char); a NULL char pointer is Option.none.
* The filesystem is a parameter fsExists : List Char -> Bool standing for the
  access(name, F_OK) existence check; resolveGET also returns the list of paths
  on which that check was performed.
* The connection write primitive is a parameter wr : Nat -> Nat giving, for each
  write request of n bytes, the number of bytes the kernel reports as written;
  the transmit loops collect the individual results so that the returned total
  can be compared with them.
* error(msg) in the C source prints and calls exit(1); it is modelled by the
  outcome constructor BuildOutcome.processExit.
-/

abbrev Chars := List Char

/-- BUFFER_SIZE from server.c line 36. -/
def BUFFER_SIZE : Nat := 4096

/-- File-type index UNKNOWN_FILE from server.c line 40. -/
def UNKNOWN_FILE : Int := -1

/-- File-type index NO_FILE from server.c line 41 (assigned for location "/"). -/
def NO_FILE : Int := 0

/-- File-type index HTML_FILE from server.c line 42. -/
def HTML_FILE : Int := 1

/-- File-type index GIF_FILE from server.c line 43. -/
def GIF_FILE : Int := 2

/-- File-type index JPEG_FILE from server.c line 44. -/
def JPEG_FILE : Int := 3

/-- File-type index MP3_FILE from server.c line 45. -/
def MP3_FILE : Int := 4

/-- File-type index PDF_FILE from server.c line 46. -/
def PDF_FILE : Int := 5

/-- The Content_Types array from server.c lines 49-54 (six entries, index 0 is ""). -/
def Content_Types : List String :=
  ["", "text/html", "image/gif", "image/jpeg", "audio/mpeg", "application/pdf"]

/-- Overwrite the prefix of a buffer with the given data, leaving the rest of the
buffer unchanged (the effect of read(fd, buffer, n) placing data into a buffer). -/
def writeBytes : List Nat → List Nat → List Nat
  | buf, [] => buf
  | [], _ :: _ => []
  | _ :: bs, d :: ds => d :: writeBytes bs ds

/-- ListenRequest, server.c lines 291-302: memset the BUFFER_SIZE buffer to zero,
then read at most BUFFER_SIZE - 1 bytes of the request into it.  The result is
the contents of the buffer handed on to the parser. -/
def ListenRequest (request : List Nat) : List Nat :=
  writeBytes (List.replicate BUFFER_SIZE 0) (request.take (BUFFER_SIZE - 1))

/-- The C string stored in a byte buffer: the bytes before the first NUL. -/
def cString (buffer : List Nat) : List Nat :=
  buffer.takeWhile (fun b => b != 0)

/-- strlen on a byte buffer. -/
def strlen (buffer : List Nat) : Nat := (cString buffer).length

/-- The http_request_line struct of server.c lines 61-65; the three fields are
filled from successive strtok calls and are NULL (none) when a token is missing. -/
structure http_request_line where
  action : Option Chars
  location : Option Chars
  http_version : Option Chars
deriving DecidableEq

/-- Tokenisation of a line at space characters with strtok semantics: maximal
runs of non-space characters, empty tokens never produced.  The first argument
accumulates the current token in reverse. -/
def tokenSplit : Chars → Chars → List Chars
  | cur, [] => if cur = [] then [] else [cur.reverse]
  | cur, c :: rest =>
    if c = ' ' then
      if cur = [] then tokenSplit [] rest else cur.reverse :: tokenSplit [] rest
    else tokenSplit (c :: cur) rest

/-- The space-separated tokens of a line (strtok(line, " ") iterated). -/
def spaceTokens (line : Chars) : List Chars := tokenSplit [] line

/-- server.c lines 323-325: remove one trailing carriage return from the
request line if present. -/
def stripCR (line : Chars) : Chars :=
  if line.getLast? = some '\r' then line.dropLast else line

/-- The request line extracted by strtok_r(buffer, "\n", ...) (which skips
leading newlines and stops at the next newline) followed by the CR strip. -/
def requestLine (buffer : Chars) : Chars :=
  stripCR ((buffer.dropWhile (fun c => c == '\n')).takeWhile (fun c => c != '\n'))

/-- ParseHTTPRequest, server.c lines 312-340, restricted to the request header
line it fills: action, location and http_version are the first three space
tokens of the request line; strtok returns NULL (none) for missing tokens and
the function never reports failure. -/
def ParseHTTPRequest (buffer : Chars) : http_request_line :=
  { action := (spaceTokens (requestLine buffer)).get? 0
  , location := (spaceTokens (requestLine buffer)).get? 1
  , http_version := (spaceTokens (requestLine buffer)).get? 2 }

/-- The file_extension produced by strtok_r(location, ".", &file_extension) at
server.c line 374: strtok skips leading dots, the token runs to the next dot,
and file_extension is everything after that first delimiter ("" if none). -/
def extAfterTok (location : Chars) : Chars :=
  ((location.dropWhile (fun c => c == '.')).dropWhile (fun c => c != '.')).drop 1

/-- The extension comparison chain of server.c lines 377-389 (case-sensitive
strcmp against html, gif, jpeg, mp3, pdf; anything else is UNKNOWN_FILE). -/
def extMatch (file_extension : Chars) : Int :=
  if file_extension = "html".toList then HTML_FILE
  else if file_extension = "gif".toList then GIF_FILE
  else if file_extension = "jpeg".toList then JPEG_FILE
  else if file_extension = "mp3".toList then MP3_FILE
  else if file_extension = "pdf".toList then PDF_FILE
  else UNKNOWN_FILE

/-- The filetype classification of server.c lines 363-390.  filesrc is the
location with its first character stripped (strcpy(filesrc, location + 1)).
"/" gives NO_FILE; a filesrc with no dot, a leading dot or a trailing dot gives
UNKNOWN_FILE; otherwise the location is split by strtok at its first dot and
the part after that dot is matched against the known extensions. -/
def initialFiletype (location : Chars) : Int :=
  if location = ['/'] then NO_FILE
  else if (!((location.drop 1).contains '.')
        || ((location.drop 1).getLast? == some '.')
        || ((location.drop 1).head? == some '.')) then UNKNOWN_FILE
  else extMatch (extAfterTok location)

/-- The resolved resource produced for a GET request: status code, file path
(filesrc) and filetype, as set at server.c lines 395-412. -/
structure ResolvedResource where
  code : Int
  filesrc : Chars
  filetype : Int
deriving DecidableEq

/-- The default document hardcoded for location "/" at server.c line 399. -/
def defaultDocument : Chars := "src/index.html".toList

/-- The not-found document hardcoded at server.c line 411. -/
def notFoundDocument : Chars := "src/404.html".toList

/-- The GET branch of BuildResponse, server.c lines 395-412.  Besides the
resolved resource it returns the list of file names on which the
access(name, F_OK) existence check was performed. -/
def resolveGET (location : Chars) (fsExists : Chars → Bool) :
    ResolvedResource × List Chars :=
  if initialFiletype location = NO_FILE then
    ({ code := 200, filesrc := defaultDocument, filetype := HTML_FILE }, [])
  else if fsExists (location.drop 1) then
    ({ code := 200, filesrc := location.drop 1, filetype := initialFiletype location },
      [location.drop 1])
  else
    ({ code := 404, filesrc := notFoundDocument, filetype := HTML_FILE },
      [location.drop 1])

/-- Outcome of BuildResponse, server.c lines 352-428: a GET request is served
with a resolved resource; a POST request falls into an empty branch (nothing is
sent, SUCCESS_RESULT is returned); any other method reaches error(), which
perror-prints and calls exit(1), terminating the whole server process. -/
inductive BuildOutcome where
  | served (resource : ResolvedResource)
  | ignored
  | processExit
deriving DecidableEq

/-- BuildResponse method dispatch, server.c lines 392-425. -/
def BuildResponse (action location : Chars) (fsExists : Chars → Bool) : BuildOutcome :=
  if action = "GET".toList then BuildOutcome.served (resolveGET location fsExists).1
  else if action = "POST".toList then BuildOutcome.ignored
  else BuildOutcome.processExit

/-- The status-variable assignment chain of ResponseHeader, server.c lines
449-457.  The chain has no else branch: for any code outside the four listed
ones the local char* status is never assigned, modelled here as none. -/
def reasonOf (code : Int) : Option String :=
  if code = 200 then some "OK"
  else if code = 301 then some "Moved Permanently"
  else if code = 400 then some "Bad Request"
  else if code = 404 then some "Not Found"
  else none

/-- The observable output of ResponseHeader: the reason phrase used in the
status line (none when the status variable was left unassigned) and the header
field lines written after it, in order. -/
structure HeaderOutput where
  statusReason : Option String
  lines : List (String × String)
deriving DecidableEq

/-- ResponseHeader, server.c lines 439-498.  For a known filetype
(0 < filetype < 6) it emits Content-Type (indexing Content_Types at filetype)
and Accept-Ranges, plus Content-Disposition for PDF and MP3.  For an unknown
filetype the local type_comment is set to "text/plain" but never written, so no
header field lines are emitted at all. -/
def ResponseHeader (code : Int) (filetype : Int) (filesrc : Chars) : HeaderOutput :=
  { statusReason := reasonOf code
  , lines :=
      if 0 < filetype ∧ filetype < 6 then
        [("Content-Type", Content_Types.getD filetype.toNat ""),
         ("Accept-Ranges", "bytes")]
        ++ (if filetype = PDF_FILE ∨ filetype = MP3_FILE then
              [("Content-Disposition", "inline; filename=\"" ++ String.mk filesrc ++ "\"")]
            else [])
      else [] }

/-- The three routing outcomes of ResponseBody, server.c lines 508-524. -/
inductive BodyRoute where
  | textMode
  | binaryMode
  | routingError
deriving DecidableEq

/-- ResponseBody routing, server.c lines 514-520: HTML and UNKNOWN go to the
text-mode SendResponse, GIF..PDF to the binary-mode one, anything else reaches
error() (the routing-error branch). -/
def ResponseBodyRoute (filetype : Int) : BodyRoute :=
  if filetype = HTML_FILE ∨ filetype = UNKNOWN_FILE then BodyRoute.textMode
  else if GIF_FILE ≤ filetype ∧ filetype ≤ PDF_FILE then BodyRoute.binaryMode
  else BodyRoute.routingError

/-- One fgets(buffer, BUFFER_SIZE - 2, file) step on the remaining file
content: reads at most lim = BUFFER_SIZE - 3 bytes, stopping after a newline
(byte 10).  Returns the bytes placed into the buffer, the remaining content,
and whether the end-of-file indicator was set by this call (an attempted read
past the end).  On empty content the buffer is left unchanged by fgets; that
case is handled by the caller. -/
def fgetsSplit (lim : Nat) (content : List Nat) : List Nat × List Nat × Bool :=
  match (content.take lim).findIdx? (fun b => b == 10) with
  | some i => (content.take (i + 1), content.drop (i + 1), false)
  | none =>
    if lim ≤ content.length then (content.take lim, content.drop lim, false)
    else (content, [], true)

/-- The text-mode loop of SendResponse, server.c lines 545-559:
while feof is unset, fgets a line into the buffer and write strlen(buffer)
bytes.  When fgets hits end-of-file and returns NULL the buffer keeps its
previous content and that content is written once more before the loop exits.
Returns byte_sum together with the list of the individual write results. -/
def textLoop (wr : Nat → Nat) : List Nat → List Nat → Nat × List Nat
  | [], buffer => (wr (strlen buffer), [wr (strlen buffer)])
  | c :: rest, _ =>
    let r := fgetsSplit (BUFFER_SIZE - 3) (c :: rest)
    if r.2.2 then (wr (strlen r.1), [wr (strlen r.1)])
    else
      (wr (strlen r.1) + (textLoop wr r.2.1 r.1).1,
       wr (strlen r.1) :: (textLoop wr r.2.1 r.1).2)
termination_by content _ => content.length
decreasing_by
  all_goals
    simp only [fgetsSplit]
    split
    · simp only [List.length_drop, List.length_cons]
      omega
    · split
      · simp only [List.length_drop, List.length_cons, BUFFER_SIZE] at *
        omega
      · simp

/-- The fread chunk size of one binary-mode iteration: fread(buffer, 1,
BUFFER_SIZE, file) returns min(BUFFER_SIZE, remaining) on a regular file. -/
def freadSize (remaining : Nat) : Nat :=
  if remaining < BUFFER_SIZE then remaining else BUFFER_SIZE

/-- The binary-mode loop of SendResponse, server.c lines 560-583: while
sended_size != file_size, fread a chunk and write it; byte_sum accumulates the
write results while sended_size accumulates the read sizes.  Returns byte_sum
together with the list of the individual write results; remaining is
file_size - sended_size. -/
def binaryLoop (wr : Nat → Nat) (remaining : Nat) : Nat × List Nat :=
  if remaining = 0 then (0, [])
  else
    (wr (freadSize remaining) + (binaryLoop wr (remaining - freadSize remaining)).1,
     wr (freadSize remaining) :: (binaryLoop wr (remaining - freadSize remaining)).2)
termination_by remaining
decreasing_by
  all_goals
    simp only [freadSize, BUFFER_SIZE]
    split <;> omega

/-- SendResponse, server.c lines 535-591: text mode runs the fgets/write loop
starting from the zeroed buffer; binary mode runs the fread/write loop over
file_size bytes.  The first component is the returned byte_sum, the second the
list of results of the individual write calls. -/
def SendResponse (wr : Nat → Nat) (file_content : List Nat) (is_text : Bool) :
    Nat × List Nat :=
  if is_text then textLoop wr file_content []
  else binaryLoop wr file_content.length

/-! ### Helper lemmas -/

/-- Overwriting a buffer prefix is take-append-drop. -/
theorem writeBytes_eq (buffer data : List Nat) :
    writeBytes buffer data = data.take buffer.length ++ buffer.drop data.length := by
  induction buffer generalizing data with
  | nil => cases data <;> simp [writeBytes]
  | cons b bs ih =>
    cases data with
    | nil => simp [writeBytes]
    | cons d ds => simp [writeBytes, ih]

/-- Appending trailing NUL padding does not change the C string read from a
buffer. -/
theorem takeWhile_append_replicate (A : List Nat) (k : Nat) :
    (A ++ List.replicate k 0).takeWhile (fun b => b != 0)
      = A.takeWhile (fun b => b != 0) := by
  induction A with
  | nil =>
    cases k with
    | zero => simp
    | succ n => simp [List.replicate_succ, List.takeWhile_cons]
  | cons a A ih =>
    by_cases h : a = 0
    · simp [List.takeWhile_cons, h]
    · simp [List.takeWhile_cons, h, ih]

/-- One fgets step on nonempty content consumes at least one byte. -/
theorem fgetsSplit_rest_lt (lim : Nat) (hlim : 1 ≤ lim) (c : Nat) (content : List Nat) :
    ((fgetsSplit lim (c :: content)).2.1).length < (c :: content).length := by
  simp only [fgetsSplit]
  split
  · simp only [List.length_drop, List.length_cons]
    omega
  · split
    · simp only [List.length_drop, List.length_cons] at *
      omega
    · simp

/-- The byte_sum accumulated by the binary-mode loop is the sum of the
individual write results. -/
theorem binaryLoop_sum (wr : Nat → Nat) (remaining : Nat) :
    (binaryLoop wr remaining).1 = (binaryLoop wr remaining).2.sum := by
  induction remaining using Nat.strong_induction_on with
  | _ remaining ih =>
    rw [binaryLoop.eq_def]
    by_cases h : remaining = 0
    · simp [h]
    · have hlt : remaining - freadSize remaining < remaining := by
        simp only [freadSize, BUFFER_SIZE]
        split <;> omega
      simp only [if_neg h, List.sum_cons]
      rw [ih _ hlt]

/-- The byte_sum accumulated by the text-mode loop is the sum of the individual
write results. -/
theorem textLoop_sum_aux (wr : Nat → Nat) :
    ∀ (n : Nat) (content buffer : List Nat), content.length ≤ n →
      (textLoop wr content buffer).1 = (textLoop wr content buffer).2.sum := by
  intro n
  induction n with
  | zero =>
    intro content buffer h
    have hc : content = [] := List.eq_nil_of_length_eq_zero (Nat.le_zero.mp h)
    subst hc
    simp [textLoop]
  | succ n ih =>
    intro content buffer h
    cases content with
    | nil => simp [textLoop]
    | cons c rest =>
      by_cases heof : (fgetsSplit (BUFFER_SIZE - 3) (c :: rest)).2.2
      · simp [textLoop, heof]
      · have hlt := fgetsSplit_rest_lt (BUFFER_SIZE - 3) (by decide) c rest
        have hrec := ih ((fgetsSplit (BUFFER_SIZE - 3) (c :: rest)).2.1)
          ((fgetsSplit (BUFFER_SIZE - 3) (c :: rest)).1)
          (by simp only [List.length_cons] at h hlt ⊢; omega)
        simp [textLoop, heof, hrec]

/-- The byte_sum accumulated by the text-mode loop is the sum of the individual
write results. -/
theorem textLoop_sum (wr : Nat → Nat) (content buffer : List Nat) :
    (textLoop wr content buffer).1 = (textLoop wr content buffer).2.sum :=
  textLoop_sum_aux wr content.length content buffer (Nat.le_refl _)

/-- The extension comparison chain only produces the five known filetypes or
UNKNOWN_FILE. -/
theorem extMatch_cases (file_extension : Chars) :
    extMatch file_extension = UNKNOWN_FILE ∨ extMatch file_extension = HTML_FILE
    ∨ extMatch file_extension = GIF_FILE ∨ extMatch file_extension = JPEG_FILE
    ∨ extMatch file_extension = MP3_FILE ∨ extMatch file_extension = PDF_FILE := by
  unfold extMatch
  repeat' split
  all_goals decide

/-- The initial filetype classification only produces NO_FILE, UNKNOWN_FILE or
one of the five known filetypes. -/
theorem initialFiletype_cases (location : Chars) :
    initialFiletype location = NO_FILE ∨ initialFiletype location = UNKNOWN_FILE
    ∨ initialFiletype location = HTML_FILE ∨ initialFiletype location = GIF_FILE
    ∨ initialFiletype location = JPEG_FILE ∨ initialFiletype location = MP3_FILE
    ∨ initialFiletype location = PDF_FILE := by
  unfold initialFiletype
  split
  · exact Or.inl rfl
  · split
    · exact Or.inr (Or.inl rfl)
    · rcases extMatch_cases (extAfterTok location) with h | h | h | h | h | h <;>
        simp [h, UNKNOWN_FILE, HTML_FILE, GIF_FILE, JPEG_FILE, MP3_FILE, PDF_FILE]

/-- dropWhile with the not-a-dot predicate walks past a dot-free prefix and
stops at the first dot. -/
theorem dropWhile_ne_dot_append (A E : Chars) (hA : ∀ a ∈ A, a ≠ '.') :
    (A ++ '.' :: E).dropWhile (fun c => c != '.') = '.' :: E := by
  induction A with
  | nil => simp [List.dropWhile_cons]
  | cons a A ih =>
    have ha : a ≠ '.' := hA a (by simp)
    simp [List.dropWhile_cons, ha, ih (fun x hx => hA x (by simp [hx]))]

/-! ### Claim theorems -/

/-- Claim C1 (code_bug evidence).  The claim states that a parsed request with
a non-GET method fails with UnsupportedMethod, the caller sends a well-formed
400 response and the server process does not terminate.  In the code, a method
that is neither GET nor POST reaches error(), which calls exit(1): the process
terminates and no response of any kind is written; a POST request falls into
an empty branch and is silently ignored.  This theorem evaluates BuildResponse
at the failing inputs. -/
theorem C1_non_get_terminates_process :
    BuildResponse ("PUT".toList) ("/x.html".toList) (fun _ => false)
        = BuildOutcome.processExit
    ∧ BuildResponse ("POST".toList) ("/x.html".toList) (fun _ => false)
        = BuildOutcome.ignored := by
  constructor <;> rfl

/-- Claim C2 (counterexample).  The claim states that invoking the
status-code-to-reason mapping with a code outside 200, 301, 400, 404 is
detected as a programming error that fails fast.  In the code the if-chain of
ResponseHeader has no else branch: for code 500 the status variable is never
assigned (statusReason = none models the unassigned variable), execution
continues, and header lines are still emitted — no failure is detected. -/
theorem C2_counterexample_code_500_silent :
    (ResponseHeader 500 HTML_FILE ("f.html".toList)).statusReason = none
    ∧ (ResponseHeader 500 HTML_FILE ("f.html".toList)).lines ≠ [] := by
  constructor <;> decide

/-- Claim C2 (amended).  The status-code-to-reason mapping is total on
the set containing 200, 301, 400 and 404, yielding OK, Moved Permanently,
Bad Request and Not Found; for every other code no branch of the chain is
taken and the reason variable is left unassigned (none) — the stray code is
not detected and nothing fails fast. -/
theorem C2_reason_mapping :
    reasonOf 200 = some "OK" ∧ reasonOf 301 = some "Moved Permanently"
    ∧ reasonOf 400 = some "Bad Request" ∧ reasonOf 404 = some "Not Found"
    ∧ ∀ code : Int, code ≠ 200 → code ≠ 301 → code ≠ 400 → code ≠ 404 →
        reasonOf code = none := by
  refine ⟨rfl, rfl, rfl, rfl, ?_⟩
  intro code h1 h2 h3 h4
  simp [reasonOf, h1, h2, h3, h4]

/-- Claim C2 witness: the amended theorem applied at code 500. -/
theorem C2_reason_mapping_witness : reasonOf 500 = none :=
  C2_reason_mapping.2.2.2.2 500 (by decide) (by decide) (by decide) (by decide)

/-- Claim C3 (counterexample).  The claim states that the candidate name is
split on the last dot, so that /a.b.html resolves to MimeKind Html.  The code
splits with strtok at the FIRST dot: for /a.b.html the compared extension is
b.html, which matches nothing, so the resource resolves to UNKNOWN_FILE even
though the file exists. -/
theorem C3_counterexample_multidot :
    (resolveGET ("/a.b.html".toList) (fun _ => true)).1.filetype = UNKNOWN_FILE
    ∧ UNKNOWN_FILE ≠ HTML_FILE := by
  constructor <;> decide

/-- Claim C3 (amended).  For a candidate file name with an inner dot, the code
splits the location at the FIRST dot (strtok with delimiter "."); the
extension compared against html, gif, jpeg, mp3, pdf is everything after that
first dot.  Hence for a location of the shape /base.ext, with base and ext
nonempty and dot-free, the filetype is exactly the extension-table match of
ext, while a multi-dot name such as /a.b.html compares b.html and yields
UNKNOWN_FILE. -/
theorem C3_first_dot_split (base ext : Chars) (hbase : base ≠ []) (hext : ext ≠ [])
    (hbdot : '.' ∉ base) (hedot : '.' ∉ ext) :
    initialFiletype ('/' :: (base ++ '.' :: ext)) = extMatch ext := by
  obtain ⟨b, bs, rfl⟩ : ∃ b bs, base = b :: bs := by
    cases base with
    | nil => exact absurd rfl hbase
    | cons b bs => exact ⟨b, bs, rfl⟩
  obtain ⟨e, es, rfl⟩ : ∃ e es, ext = e :: es := by
    cases ext with
    | nil => exact absurd rfl hext
    | cons e es => exact ⟨e, es, rfl⟩
  have hb : b ≠ '.' := fun hc => hbdot (by simp [hc])
  have h1 : ('/' :: ((b :: bs) ++ '.' :: (e :: es)) : Chars) ≠ ['/'] := by simp
  have hg : ((b :: bs) ++ '.' :: (e :: es)).getLast? = (e :: es).getLast? := by
    rw [List.getLast?_append_of_ne_nil _ (by simp)]
    rw [show ('.' :: (e :: es) : Chars) = ['.'] ++ (e :: es) from rfl]
    rw [List.getLast?_append_of_ne_nil _ (by simp)]
  have hgl : (e :: es).getLast? = some ((e :: es).getLast (by simp)) :=
    List.getLast?_eq_getLast _ _
  have hgne : ((e :: es).getLast (by simp) : Char) ≠ '.' := by
    intro hc
    exact hedot (hc ▸ List.getLast_mem (by simp))
  have hcond : (!(((b :: bs) ++ '.' :: (e :: es)).contains '.')
        || (((b :: bs) ++ '.' :: (e :: es)).getLast? == some '.')
        || (((b :: bs) ++ '.' :: (e :: es)).head? == some '.')) = false := by
    have hc1 : ((b :: bs) ++ '.' :: (e :: es)).contains '.' = true :=
      List.elem_iff.mpr (by simp)
    have e1 : ((some ((e :: es).getLast (by simp)) : Option Char) == some '.') = false :=
      beq_eq_false_iff_ne.mpr (by simpa using hgne)
    have e2 : ((some b : Option Char) == some '.') = false :=
      beq_eq_false_iff_ne.mpr (by simpa using hb)
    rw [hc1, hg, hgl]
    rw [show ((b :: bs) ++ '.' :: (e :: es)).head? = some b from rfl]
    rw [e1, e2]
    rfl
  have hA : extAfterTok ('/' :: ((b :: bs) ++ '.' :: (e :: es))) = e :: es := by
    unfold extAfterTok
    rw [List.dropWhile_cons]
    simp only [show (('/' : Char) == '.') = false from rfl, Bool.false_eq_true,
      if_false]
    rw [show ('/' :: ((b :: bs) ++ '.' :: (e :: es)) : Chars)
          = ('/' :: b :: bs) ++ '.' :: (e :: es) from rfl]
    rw [dropWhile_ne_dot_append ('/' :: b :: bs) (e :: es) ?_]
    · rfl
    · intro a ha
      rcases List.mem_cons.mp ha with h | h
      · subst h; decide
      · rcases List.mem_cons.mp h with h2 | h2
        · subst h2; exact hb
        · exact fun hc => hbdot (List.mem_cons_of_mem b (hc ▸ h2))
  unfold initialFiletype
  rw [if_neg h1]
  simp only [List.drop_succ_cons, List.drop_zero]
  rw [if_neg (by rw [hcond]; exact Bool.false_ne_true)]
  rw [hA]

/-- Claim C3 witness: the amended theorem applied to /index.html, whose
first-dot extension html matches HTML_FILE. -/
theorem C3_first_dot_split_witness :
    initialFiletype ('/' :: ("index".toList ++ '.' :: "html".toList))
      = extMatch ("html".toList) :=
  C3_first_dot_split ("index".toList) ("html".toList)
    (by decide) (by decide) (by decide) (by decide)

/-- Claim C4 (code_bug evidence).  The claim states that a resource resolved
with mimeKind Unknown is served with a text/plain content-type header.  In the
code the unknown-filetype branch of ResponseHeader assigns the local
type_comment = "text/plain" but never writes it: no Content-Type header line
(and indeed no header field line at all) is emitted.  The first conjunct
checks the example given in the claim: /notes.xyz with the file present resolves to
status 200 with UNKNOWN_FILE; the second shows the emitted header line list
for that resource is empty. -/
theorem C4_unknown_emits_no_content_type :
    (resolveGET ("/notes.xyz".toList) (fun _ => true)).1
        = { code := 200, filesrc := "notes.xyz".toList, filetype := UNKNOWN_FILE }
    ∧ (ResponseHeader 200 UNKNOWN_FILE ("notes.xyz".toList)).lines = [] := by
  constructor <;> decide

/-- Claim C5 (counterexample).  The claim states that a request buffer whose
first line has fewer than three space tokens fails with MalformedRequest.  The
parser has no failure path: for the example given in the claim, "GET /\r\n", it returns
a normally populated http_request_line whose http_version field is merely NULL
(the third strtok returned NULL), and the enclosing loop returns a
non-negative count, so no error is raised. -/
theorem C5_counterexample_two_tokens :
    ParseHTTPRequest ("GET /\r\n".toList)
      = { action := some ("GET".toList), location := some ("/".toList)
        , http_version := none } := by
  decide

/-- Claim C5 (amended).  A request line with fewer than three space tokens
does not fail: ParseHTTPRequest unconditionally assigns the three fields from
successive strtok results and the missing fields are NULL, so with fewer than
three tokens the http_version field is none and parsing returns normally. -/
theorem C5_missing_tokens_yield_none (buffer : Chars)
    (h : (spaceTokens (requestLine buffer)).length < 3) :
    (ParseHTTPRequest buffer).http_version = none := by
  simp only [ParseHTTPRequest]
  exact List.get?_eq_none.mpr (by omega)

/-- Claim C5 witness: the amended theorem applied to the buffer "GET /\r\n". -/
theorem C5_missing_tokens_yield_none_witness :
    (ParseHTTPRequest ("GET /\r\n".toList)).http_version = none :=
  C5_missing_tokens_yield_none ("GET /\r\n".toList) (by decide)

/-- Claim C6 (confirmed).  For a GET request with location exactly "/", the
resolution yields status 200, the default document src/index.html and
HTML_FILE, for every filesystem — and the returned list of access-checked
paths is empty, so no existence check is performed on "/" or on anything
else. -/
theorem C6_root_resolution (fsExists : Chars → Bool) :
    resolveGET (['/']) fsExists
      = ({ code := 200, filesrc := defaultDocument, filetype := HTML_FILE }, []) := rfl

/-- Claim C7 (confirmed).  Every resolved resource with status code 404 has
the configured not-found document src/404.html as its file path and HTML_FILE
as its filetype, whatever location and filesystem produced it. -/
theorem C7_notfound_invariant (location : Chars) (fsExists : Chars → Bool)
    (h : (resolveGET location fsExists).1.code = 404) :
    (resolveGET location fsExists).1.filesrc = notFoundDocument
    ∧ (resolveGET location fsExists).1.filetype = HTML_FILE := by
  by_cases h0 : initialFiletype location = NO_FILE
  · rw [resolveGET, if_pos h0] at h
    exact absurd h (by decide)
  · by_cases h1 : fsExists (location.drop 1) = true
    · rw [resolveGET, if_neg h0, if_pos h1] at h
      simp at h
    · rw [resolveGET, if_neg h0, if_neg h1]
      exact ⟨rfl, rfl⟩

/-- Claim C7 witness: the invariant applied to the 404 resolution of
/nope.html on an empty filesystem. -/
theorem C7_notfound_invariant_witness :
    (resolveGET ("/nope.html".toList) (fun _ => false)).1.filesrc = notFoundDocument
    ∧ (resolveGET ("/nope.html".toList) (fun _ => false)).1.filetype = HTML_FILE :=
  C7_notfound_invariant ("/nope.html".toList) (fun _ => false) (by decide)

/-- Claim C8 (confirmed).  In both text mode and binary mode, and for every
file content (including the empty file, a one-byte file and multiples of the
4096-byte chunk), the byte count returned by SendResponse equals the sum of
the per-write results actually reported by the connection, not the number of
bytes read from the file. -/
theorem C8_sendresponse_sum_of_writes (wr : Nat → Nat) (file_content : List Nat)
    (mode : Bool) :
    (SendResponse wr file_content mode).1 = (SendResponse wr file_content mode).2.sum := by
  cases mode with
  | true => simpa [SendResponse] using textLoop_sum wr file_content []
  | false => simpa [SendResponse] using binaryLoop_sum wr file_content.length

/-- Claim C9 (confirmed).  For every GET request, the resolved filetype is one
of UNKNOWN_FILE, HTML_FILE, GIF_FILE, JPEG_FILE, MP3_FILE, PDF_FILE (the
NO_FILE value assigned for "/" is always rewritten to HTML_FILE during
resolution); consequently the routing-error branch of ResponseBody is never taken
and the Content_Types index used by ResponseHeader is within bounds. -/
theorem C9_filetype_range_safe (location : Chars) (fsExists : Chars → Bool) :
    ((resolveGET location fsExists).1.filetype = UNKNOWN_FILE
      ∨ (resolveGET location fsExists).1.filetype = HTML_FILE
      ∨ (resolveGET location fsExists).1.filetype = GIF_FILE
      ∨ (resolveGET location fsExists).1.filetype = JPEG_FILE
      ∨ (resolveGET location fsExists).1.filetype = MP3_FILE
      ∨ (resolveGET location fsExists).1.filetype = PDF_FILE)
    ∧ ResponseBodyRoute ((resolveGET location fsExists).1.filetype)
        ≠ BodyRoute.routingError
    ∧ ((resolveGET location fsExists).1.filetype).toNat < Content_Types.length := by
  have hmem : (resolveGET location fsExists).1.filetype = UNKNOWN_FILE
      ∨ (resolveGET location fsExists).1.filetype = HTML_FILE
      ∨ (resolveGET location fsExists).1.filetype = GIF_FILE
      ∨ (resolveGET location fsExists).1.filetype = JPEG_FILE
      ∨ (resolveGET location fsExists).1.filetype = MP3_FILE
      ∨ (resolveGET location fsExists).1.filetype = PDF_FILE := by
    by_cases h0 : initialFiletype location = NO_FILE
    · rw [resolveGET, if_pos h0]
      exact .inr (.inl rfl)
    · by_cases h1 : fsExists (location.drop 1) = true
      · rw [resolveGET, if_neg h0, if_pos h1]
        show initialFiletype location = UNKNOWN_FILE
          ∨ initialFiletype location = HTML_FILE
          ∨ initialFiletype location = GIF_FILE
          ∨ initialFiletype location = JPEG_FILE
          ∨ initialFiletype location = MP3_FILE
          ∨ initialFiletype location = PDF_FILE
        have hcs := initialFiletype_cases location
        tauto
      · rw [resolveGET, if_neg h0, if_neg h1]
        exact .inr (.inl rfl)
  refine ⟨hmem, ?_, ?_⟩
  · rcases hmem with h | h | h | h | h | h <;> rw [h] <;> decide
  · rcases hmem with h | h | h | h | h | h <;> rw [h] <;> decide

/-- Claim C10 (confirmed).  ListenRequest zero-fills its BUFFER_SIZE buffer
and reads at most BUFFER_SIZE - 1 = 4095 bytes of the request into it: the
buffer keeps length 4096, everything beyond the bytes read stays zero (so the
buffer handed to the parser always contains a NUL terminator), and the C
string the parser sees is exactly the C string of the first 4095 request
bytes — a longer request is silently truncated, not rejected. -/
theorem C10_listen_request_buffer (request : List Nat) :
    (ListenRequest request).length = BUFFER_SIZE
    ∧ (0 : Nat) ∈ ListenRequest request
    ∧ (ListenRequest request).drop (min (BUFFER_SIZE - 1) request.length)
        = List.replicate (BUFFER_SIZE - min (BUFFER_SIZE - 1) request.length) 0
    ∧ cString (ListenRequest request) = cString (request.take (BUFFER_SIZE - 1)) := by
  have hlen : (request.take (BUFFER_SIZE - 1)).length
      = min (BUFFER_SIZE - 1) request.length := List.length_take _ _
  have hbuf : ListenRequest request
      = request.take (BUFFER_SIZE - 1)
        ++ List.replicate (BUFFER_SIZE - min (BUFFER_SIZE - 1) request.length) 0 := by
    rw [ListenRequest, writeBytes_eq, List.length_replicate, List.take_take,
      List.drop_replicate, hlen]
    congr 1
  have hmin : min (BUFFER_SIZE - 1) request.length ≤ BUFFER_SIZE - 1 :=
    Nat.min_le_left _ _
  refine ⟨?_, ?_, ?_, ?_⟩
  · rw [hbuf, List.length_append, List.length_replicate, hlen]
    simp only [BUFFER_SIZE] at *
    omega
  · rw [hbuf]
    refine List.mem_append.mpr (Or.inr ?_)
    rw [List.mem_replicate]
    refine ⟨?_, rfl⟩
    simp only [BUFFER_SIZE] at *
    omega
  · rw [hbuf, ← hlen, List.drop_left, hlen]
  · rw [hbuf, cString, cString, takeWhile_append_replicate]
